import Mathlib

/-!
Shallow embedding of the braindrop local-store / raindrop-client core
(`src/braindrop/raindrop/collection.py`, `src/braindrop/raindrop/client.py`,
`src/braindrop/app/screens/main.py`), with the pieces the repository imports
but does not ship (`app/data`, `raindrop/user.py`, `raindrop/time_tools.py`)
modelled from the specification.  Definitions mirror the Python source;
theorems settle the specification claims.
-/

namespace Braindrop

/-- A JSON value, as produced by `json.loads`.  Numbers are modelled as
integers (the fields the core reads are identities, counts and sort
values).  A JSON object is a finite list of key/value pairs, first
binding wins on lookup, matching Python `dict` semantics for the data
the API returns. -/
inductive Json where
  | null
  | bool (b : Bool)
  | num (n : Int)
  | str (s : String)
  | arr (xs : List Json)
  | obj (fields : List (String × Json))

/-- Lookup of a key in a JSON-object field list (Python `data[key]` /
`data.get(key)` on a `dict`). -/
def jsonLookup : List (String × Json) → String → Option Json
  | [], _ => none
  | (k, v) :: rest, key => if k = key then some v else jsonLookup rest key

/-- Python `key in data` on a `dict`. -/
def jsonHasKey (fields : List (String × Json)) (key : String) : Bool :=
  (jsonLookup fields key).isSome

/-- Python `data.get(key, default)` on a `dict`. -/
def jsonGetD (fields : List (String × Json)) (key : String) (default : Json) : Json :=
  (jsonLookup fields key).getD default

/-- Python truthiness of a JSON-decoded value (`None`, `False`, `0`, `""`,
`[]` and `{}` are falsey). -/
def jsonTruthy : Json → Bool
  | .null => false
  | .bool b => b
  | .num n => n ≠ 0
  | .str s => s ≠ ""
  | .arr xs => !xs.isEmpty
  | .obj fs => !fs.isEmpty

/-- Is this JSON value an object?  Python `isinstance(x, dict)` on a
JSON-decoded value. -/
def jsonIsObj : Json → Bool
  | .obj _ => true
  | _ => false

/-- Is this JSON value `null` (Python `None`)? -/
def jsonIsNull : Json → Bool
  | .null => true
  | _ => false

/-- The Python exceptions the embedded code can raise.
`RaindropRequestError` is the client's typed `Raindrop.RequestError`
(a subclass of `Raindrop.Error`), carrying `str(error)` of the
underlying failure; the others are builtin (untyped, outside the
`Raindrop.Error` hierarchy) exceptions. -/
inductive PyExc where
  | RaindropRequestError (msg : String)
  | KeyError (key : String)
  | AttributeError (msg : String)
  | TypeError (msg : String)
  deriving DecidableEq, Repr

/-- One step of Python `str.title()`: an alphabetic character is
uppercased when the previous character was not alphabetic, lowercased
otherwise. -/
def pyTitleChars : Bool → List Char → List Char
  | _, [] => []
  | prevAlpha, c :: cs =>
    (if c.isAlpha then (if prevAlpha then c.toLower else c.toUpper) else c)
      :: pyTitleChars c.isAlpha cs

/-- Python `str.title()`. -/
def pyTitle (s : String) : String :=
  ⟨pyTitleChars false s.data⟩

/-- Timestamps.  `datetime` values are totally ordered; only their order
matters to the core, so they are modelled as integers. -/
abbrev Timestamp := Int

/-- Modelled from the spec: `raindrop/time_tools.py` is not under `src/`
(`collection.py` imports `get_time` from it).  The spec only requires
optional created/last-updated timestamps, so `get_time data key` reads
the optional timestamp stored under `key`: the field's value when the
key is present with a non-null value, absent otherwise.  The timestamp
is the numeric reading of the stored value. -/
def get_time (data : List (String × Json)) (key : String) : Option Timestamp :=
  match jsonLookup data key with
  | some (.num n) => some n
  | _ => none

/-- Structure `Collection` (`collection.py`): the details of a collection.  Python
performs no runtime type checking when the frozen dataclass is
constructed, so the fields populated straight from JSON keep type
`Json`; `Json.null` models Python `None`.  `created` and `last_update`
come from `get_time` and are optional timestamps. -/
structure Collection where
  raw : List (String × Json)
  identity : Json
  color : Json
  count : Json
  cover : Json
  created : Option Timestamp
  expanded : Json
  last_update : Option Timestamp
  public : Json
  sort : Json
  title : Json
  view : Json
  parent : Json

namespace Collection

/-- Embeds `Collection.from_json` (`collection.py`): create a collection from a
JSON object.  `data["_id"]` raises `KeyError` when `"_id"` is absent;
`data.get("parent", {}).get("$id")` raises `AttributeError` when the
`"parent"` value is present but not an object (only `dict` has `.get`);
`.get("$id")` yields `None` (here `Json.null`) when the key is absent. -/
def from_json (data : List (String × Json)) : Except PyExc Collection :=
  match jsonLookup data "_id" with
  | none => .error (.KeyError "_id")
  | some identity =>
    match jsonGetD data "parent" (.obj []) with
    | .obj parentFields =>
      .ok
        { raw := data
          identity := identity
          color := jsonGetD data "color" (.str "")
          count := jsonGetD data "count" (.num 0)
          cover := jsonGetD data "cover" (.arr [])
          created := get_time data "created"
          expanded := jsonGetD data "expanded" (.bool false)
          last_update := get_time data "lastUpdate"
          public := jsonGetD data "public" (.bool false)
          sort := jsonGetD data "sort" (.num 0)
          title := jsonGetD data "title" (.str "")
          view := jsonGetD data "view" (.str "")
          parent := (jsonLookup parentFields "$id").getD .null }
    | _ => .error (.AttributeError "no attribute get")

end Collection

/-- Embeds `SpecialCollection` (`collection.py`): the `IntEnum` of IDs of the
special collections. -/
inductive SpecialCollection where
  | ALL
  | UNSORTED
  | TRASH
  | UNTAGGED
  | BROKEN
  deriving DecidableEq, Repr

namespace SpecialCollection

/-- The `IntEnum` value of each member. -/
def value : SpecialCollection → Int
  | .ALL => 0
  | .UNSORTED => -1
  | .TRASH => -99
  | .UNTAGGED => -998
  | .BROKEN => -999

/-- The `IntEnum` member name (Python `self.name`). -/
def name : SpecialCollection → String
  | .ALL => "ALL"
  | .UNSORTED => "UNSORTED"
  | .TRASH => "TRASH"
  | .UNTAGGED => "UNTAGGED"
  | .BROKEN => "BROKEN"

/-- Embeds `SpecialCollection.__call__` (`collection.py`): turn a collection ID
into a `Collection` object. -/
def call (s : SpecialCollection) : Collection :=
  { raw := []
    identity := .num s.value
    color := .str ""
    count := .num 0
    cover := .arr []
    created := none
    expanded := .bool true
    last_update := none
    public := .bool false
    sort := .num 0
    title := .str (pyTitle s.name)
    view := .str ""
    parent := .num (-1) }

end SpecialCollection

/-- An HTTP response, as far as `Raindrop._call` (`client.py`) inspects
it: its body text, and whether `response.raise_for_status()` raises
`HTTPStatusError` — `some msg` when the status is an error status, with
`msg` the human-readable `str(error)` of that exception. -/
structure HttpResponse where
  text : String
  status_error : Option String

/-- The outcome of the `httpx` GET performed by `Raindrop._call`:
either a response, or one of the two exception classes the `try` block
catches, each carrying the `str(error)` of the raised exception. -/
inductive GetOutcome where
  | success (response : HttpResponse)
  | requestError (msg : String)
  | sslCertVerificationError (msg : String)

namespace Raindrop

/-- Embeds `Raindrop._call` (`client.py`): perform the GET; a caught
`httpx.RequestError` or `ssl.SSLCertVerificationError` is re-raised as
`Raindrop.RequestError(str(error))`; then `raise_for_status()`, whose
`HTTPStatusError` is likewise re-raised as
`Raindrop.RequestError(str(error))`; otherwise return `response.text`. -/
def call (outcome : GetOutcome) : Except PyExc String :=
  match outcome with
  | .requestError msg => .error (.RaindropRequestError msg)
  | .sslCertVerificationError msg => .error (.RaindropRequestError msg)
  | .success response =>
    match response.status_error with
    | some msg => .error (.RaindropRequestError msg)
    | none => .ok response.text

/-- Embeds `Raindrop._result_of` (`client.py`), applied to the parsed JSON
object of a response body: `(result["result"], result[value]) if value
in result else (result[value], None)`.  When `value` is a key of the
object, Python first evaluates `result["result"]` (raising
`KeyError("result")` if absent) and then `result[value]`; otherwise the
fallback expression indexes the absent `value` key and raises
`KeyError(value)`. -/
def result_of (value : String) (result : List (String × Json)) :
    Except PyExc (Json × Json) :=
  if jsonHasKey result value then
    match jsonLookup result "result" with
    | none => .error (.KeyError "result")
    | some r =>
      match jsonLookup result value with
      | some v => .ok (r, v)
      | none => .error (.KeyError value)
  else
    .error (.KeyError value)

end Raindrop

/-- Modelled from the spec: `raindrop/user.py` is not under `src/`
(`client.py` imports `User` from it).  Per the spec's data model the
user record carries an identity, a display name, and an optional "last
action" timestamp used purely to decide staleness; the raw JSON it was
built from is retained. -/
structure User where
  raw : Json
  identity : Json
  full_name : Json
  last_action : Option Timestamp

namespace User

/-- Modelled from the spec: `User.from_json` builds a `User` from the
JSON value of the response's `user` field, reading the identity, name
and optional last-action timestamp fields when the value is an object. -/
def from_json (data : Json) : User :=
  match data with
  | .obj fields =>
    { raw := data
      identity := jsonGetD fields "_id" .null
      full_name := jsonGetD fields "fullName" .null
      last_action := get_time fields "lastAction" }
  | _ => { raw := data, identity := .null, full_name := .null, last_action := none }

end User

namespace Raindrop

/-- Embeds `Raindrop.user` (`client.py`), applied to the outcome of the API
call on the `user` endpoint (`.error e` when `_call` raised `e`, `.ok
result` when the body parsed to the JSON object `result`):
`result, user = await self._result_of("user", "user")`, then
`User.from_json(user) if result and user is not None else None`. -/
def user (callResult : Except PyExc (List (String × Json))) :
    Except PyExc (Option User) :=
  match callResult with
  | .error e => .error e
  | .ok parsed =>
    match result_of "user" parsed with
    | .error e => .error e
    | .ok (result, u) =>
      if jsonTruthy result && !jsonIsNull u then .ok (some (User.from_json u))
      else .ok none

/-- The list comprehension in `Raindrop.collections` (`client.py`):
`[Collection.from_json(c) for c in collections or [] if isinstance(c,
dict)]` — an item that is not a JSON object is dropped by the
`isinstance` filter; `Collection.from_json` runs on each object item
and any exception it raises propagates. -/
def parse_collections : List Json → Except PyExc (List Collection)
  | [] => .ok []
  | j :: rest =>
    match j with
    | .obj fields =>
      match Collection.from_json fields with
      | .error e => .error e
      | .ok c =>
        match parse_collections rest with
        | .error e => .error e
        | .ok cs => .ok (c :: cs)
    | _ => parse_collections rest

/-- One non-`all` level of `Raindrop.collections` (`client.py`),
applied to the parsed JSON object of the response for that level's
endpoint: `_, collections = await self._items_of(...)` (`_items_of`
is `_result_of("items", ...)`), then the comprehension over
`collections or []`.  A falsey `items` value (such as `null`) is
replaced by the empty list; iterating a non-list, non-falsey value
raises `TypeError`. -/
def collections_level (resp : List (String × Json)) :
    Except PyExc (List Collection) :=
  match result_of "items" resp with
  | .error e => .error e
  | .ok (_, items) =>
    match (if jsonTruthy items then items else .arr []) with
    | .arr xs => parse_collections xs
    | _ => .error (.TypeError "not iterable")

/-- Embeds `Raindrop.collections("all")` (`client.py`): `await
self.collections("root") + await self.collections("children")`, given
the parsed response objects of the root-level and child-level calls. -/
def collections_all (rootResp childResp : List (String × Json)) :
    Except PyExc (List Collection) :=
  match collections_level rootResp with
  | .error e => .error e
  | .ok root =>
    match collections_level childResp with
    | .error e => .error e
    | .ok children => .ok (root ++ children)

end Raindrop

/-- Modelled from the spec: `raindrop.py` (the bookmark record) is not
under `src/`.  Per the spec's data model a raindrop is a single
bookmark: stable numeric identity, title, link URL, excerpt, optional
creation timestamp, owning collection identity, tags, and a
broken-link flag. -/
structure RaindropItem where
  identity : Int
  title : String
  link : String
  excerpt : String
  created : Option Timestamp
  collection : Int
  tags : List String
  broken : Bool
  deriving DecidableEq, Repr

/-- Modelled from the spec: `app/data` (the `LocalData` store) is not
under `src/`.  Its `Snapshot` is the unit of persistence:
`{ collections, raindrops, downloadedAt | absent }`. -/
structure Snapshot where
  collections : List Collection
  raindrops : List RaindropItem
  last_downloaded : Option Timestamp

/-- The spec's `ApiError`: a single typed error carrying a
human-readable message. -/
structure ApiError where
  message : String
  deriving DecidableEq, Repr

/-- Modelled from the spec: `LocalData.download` is not under `src/`.
Per the spec it fetches collections and raindrops via the remote
client and on success atomically replaces the snapshot, setting
`downloadedAt` to "now"; on any fetch failure the prior snapshot is
left untouched and the error is surfaced to the caller.  The two fetch
outcomes are the failure injection points; the result pairs the store's
snapshot after the call with the surfaced error, if any. -/
def download (state : Snapshot) (now : Timestamp)
    (fetchedCollections : Except ApiError (List Collection))
    (fetchedRaindrops : Except ApiError (List RaindropItem)) :
    Snapshot × Option ApiError :=
  match fetchedCollections with
  | .error e => (state, some e)
  | .ok cs =>
    match fetchedRaindrops with
    | .error e => (state, some e)
    | .ok rs =>
      ({ collections := cs, raindrops := rs, last_downloaded := some now }, none)

/-- A narrowing filter applied on top of an unfiltered view: tag
membership or free-text search, per the spec's View/Filter Engine. -/
inductive ViewFilter where
  | tag (tag : String)
  | search (text : String)
  deriving DecidableEq, Repr

/-- Modelled from the spec: `app/data`'s `Raindrops` class (the
filtered view) is not under `src/`.  Per the spec a view is derived
from the unfiltered base view of a selected collection by a chain of
tag/search filters, and "each View therefore must retain a reference to
the base collection-view it was filtered from"; the back-reference is
the selected collection identity together with its unfiltered item
list, and the chain records the filters applied on top, in order. -/
structure Raindrops where
  collection : Int
  base : List RaindropItem
  filters : List ViewFilter
  deriving DecidableEq, Repr

/-- Python `str.lower()`, the case normalisation the spec requires of
tag and search matching. -/
def pyLower (s : String) : String := s.toLower

/-- Modelled from the spec: does a raindrop survive one narrowing
filter?  Tag filtering is a case-normalised membership test against the
item's tag set; search is a case-insensitive substring match against
title, excerpt and URL, with empty text a no-op (keeping every item). -/
def matchesFilter (r : RaindropItem) : ViewFilter → Bool
  | .tag t => r.tags.any fun tg => pyLower tg = pyLower t
  | .search text =>
    if text = "" then true
    else
      ((pyLower r.title).splitOn (pyLower text)).length > 1 ||
      ((pyLower r.excerpt).splitOn (pyLower text)).length > 1 ||
      ((pyLower r.link).splitOn (pyLower text)).length > 1

/-- The items of a view: the base list narrowed by every filter in the
chain, preserving the base order. -/
def Raindrops.items (v : Raindrops) : List RaindropItem :=
  v.base.filter fun r => v.filters.all (matchesFilter r)

/-- Modelled from the spec: `Raindrops.tagged` returns a new view
narrowed by a tag filter — the engine takes "a previously filtered
result, enabling filter chaining", so the filter is appended to the
receiving view's chain. -/
def Raindrops.tagged (v : Raindrops) (t : String) : Raindrops :=
  { v with filters := v.filters ++ [.tag t] }

/-- Modelled from the spec: `Raindrops.containing` returns a new view
narrowed by a free-text search filter appended to the receiving view's
chain. -/
def Raindrops.containing (v : Raindrops) (text : String) : Raindrops :=
  { v with filters := v.filters ++ [.search text] }

/-- Modelled from the spec: `Raindrops.unfiltered` "resets to the
View's last full-collection base, discarding any tag/search narrowing
applied on top of it" — the same collection and base with an empty
filter chain. -/
def Raindrops.unfiltered (v : Raindrops) : Raindrops :=
  { v with filters := [] }

/-- Modelled from the spec: membership of a raindrop in a collection,
with the five special collections applying their own semantics: All =
no filtering; Unsorted = no assigned collection; Untagged = empty tag
set; Broken = broken-link flag set; Trash = permanently empty (no
deletion flag exists in the data model); any other identity is an
equality test on the owning collection. -/
def inCollectionId (c : Int) (r : RaindropItem) : Bool :=
  if c = SpecialCollection.ALL.value then true
  else if c = SpecialCollection.UNSORTED.value then
    r.collection = SpecialCollection.UNSORTED.value
  else if c = SpecialCollection.UNTAGGED.value then r.tags.isEmpty
  else if c = SpecialCollection.BROKEN.value then r.broken
  else if c = SpecialCollection.TRASH.value then false
  else r.collection = c

/-- Modelled from the spec: `LocalData.in_collection` produces the
fresh unfiltered view of a collection from the store's raindrops. -/
def in_collection (stored : List RaindropItem) (c : Int) : Raindrops :=
  { collection := c
    base := stored.filter (inCollectionId c)
    filters := [] }

/-- The messages of `Main` (`app/screens/main.py` and
`app/messages/commands.py`) that change the active collection. -/
inductive Msg where
  | ClearFilters
  | ShowCollection (c : Int)
  | ShowTagged (t : String)
  | Search (text : String)
  deriving DecidableEq, Repr

namespace Main

/-- The step relation of `Main` over `active_collection`
(`app/screens/main.py`): `action_clear_filters_command` sets
`self.active_collection.unfiltered`; `command_show_collection` sets
`self._data.in_collection(command.collection)`; `command_show_tagged`
sets `self.active_collection.tagged(command.tag)`;
`action_search_command` sets
`self.active_collection.containing(search_text)`. -/
def step (stored : List RaindropItem) (active : Raindrops) : Msg → Raindrops
  | .ClearFilters => active.unfiltered
  | .ShowCollection c => in_collection stored c
  | .ShowTagged t => active.tagged t
  | .Search text => active.containing text

/-- The distinct ways `Main.maybe_redownload`
(`app/screens/main.py`) can finish. -/
inductive RedownloadOutcome where
  | serverError (msg : String)
  | raised (e : PyExc)
  | noUserData
  | populateLocal
  | redownload
  deriving DecidableEq, Repr

/-- Embeds `Main.maybe_redownload` (`app/screens/main.py`): fetching the user
is wrapped in `try ... except API.Error`, which catches only the
client's typed error hierarchy (notified and aborted); any other
exception propagates.  A `None` user is notified and aborted.
Otherwise, when `self._data.last_downloaded is None`, or when
`self._user.last_action is None or self._user.last_action >
self._data.last_downloaded`, a `Redownload` message is posted; in the
remaining case the local copy is displayed. -/
def maybe_redownload (userResult : Except PyExc (Option User))
    (last_downloaded : Option Timestamp) : RedownloadOutcome :=
  match userResult with
  | .error (.RaindropRequestError msg) => .serverError msg
  | .error e => .raised e
  | .ok none => .noUserData
  | .ok (some u) =>
    match last_downloaded with
    | none => .redownload
    | some downloaded =>
      match u.last_action with
      | none => .redownload
      | some action => if action > downloaded then .redownload else .populateLocal

end Main

/-- The staleness predicate exactly as the specification states it:
true when `downloadedAt` is absent, or when `serverLastAction` is
present and strictly newer than `downloadedAt`; in every other state —
in particular when `downloadedAt` is present and `serverLastAction` is
absent — the store is not stale.  Written from the spec's words, for
comparison with the code's decision. -/
def isStaleClaimed (downloadedAt serverLastAction : Option Timestamp) : Bool :=
  match downloadedAt with
  | none => true
  | some d =>
    match serverLastAction with
    | none => false
    | some a => a > d

/-- The staleness predicate the code actually implements: true when
`downloadedAt` is absent, or when `serverLastAction` is absent, or when
`serverLastAction` is strictly newer than `downloadedAt`. -/
def isStaleAmended (downloadedAt serverLastAction : Option Timestamp) : Bool :=
  match downloadedAt with
  | none => true
  | some d =>
    match serverLastAction with
    | none => true
    | some a => a > d

/-- The well-formedness condition on the `"parent"` field under which
`Collection.from_json` cannot hit the `AttributeError` of
`data.get("parent", {}).get("$id")`: the `"parent"` value, when
present, is a JSON object. -/
def parentWellFormed (data : List (String × Json)) : Bool :=
  match jsonLookup data "parent" with
  | some j => jsonIsObj j
  | none => true

/-- Helper: Python `data.get(key, default)` yields the default when the
key is absent. -/
theorem jsonGetD_of_hasKey_eq_false (fields : List (String × Json)) (key : String)
    (d : Json) (h : jsonHasKey fields key = false) : jsonGetD fields key d = d := by
  unfold jsonHasKey at h
  unfold jsonGetD
  cases hl : jsonLookup fields key with
  | none => rfl
  | some v => simp [hl] at h

/-- Helper: an absent key reads as an absent timestamp. -/
theorem get_time_of_hasKey_eq_false (data : List (String × Json)) (key : String)
    (h : jsonHasKey data key = false) : get_time data key = none := by
  unfold jsonHasKey at h
  unfold get_time
  cases hl : jsonLookup data key with
  | none => rfl
  | some v => simp [hl] at h

/-- Helper: every error `Raindrop._result_of` raises is a `KeyError`. -/
theorem result_of_error_is_keyError (value : String) (resp : List (String × Json))
    (e : PyExc) (h : Raindrop.result_of value resp = .error e) :
    ∃ k, e = .KeyError k := by
  unfold Raindrop.result_of at h
  split at h
  · split at h
    · exact ⟨"result", (Except.error.inj h).symm⟩
    · split at h
      · exact absurd h (by simp)
      · exact ⟨value, (Except.error.inj h).symm⟩
  · exact ⟨value, (Except.error.inj h).symm⟩

/-- C1 (counterexample): the claim says that when a last-download
timestamp exists and the server's last-action timestamp is absent, the
store is not stale and no redownload is triggered.  In the code,
`Main.maybe_redownload` with `last_downloaded = some 0` and a user
whose `last_action` is absent posts `Redownload`, while the claimed
staleness predicate calls that very state not stale. -/
theorem maybe_redownload_absent_last_action_counterexample :
    Main.maybe_redownload
        (.ok (some { raw := .null, identity := .null, full_name := .null,
                     last_action := none }))
        (some 0) = .redownload ∧
      isStaleClaimed (some 0) none = false :=
  ⟨rfl, rfl⟩

/-- C1 (amended): the staleness decision of `Main.maybe_redownload` is
a pure comparison that treats the store as stale — and posts
`Redownload` — exactly when the last-download timestamp is absent, or
the server's last-action timestamp is absent, or the last-action
timestamp is strictly newer than the last-download timestamp; in every
other state no redownload is triggered and the local copy is
displayed. -/
theorem maybe_redownload_staleness_decision :
    ∀ (u : User) (dl : Option Timestamp),
      Main.maybe_redownload (.ok (some u)) dl =
        (if isStaleAmended dl u.last_action then .redownload else .populateLocal) := by
  intro u dl
  cases dl with
  | none => rfl
  | some d =>
    cases hla : u.last_action with
    | none => simp [Main.maybe_redownload, isStaleAmended, hla]
    | some a =>
      by_cases h : a > d
      · simp [Main.maybe_redownload, isStaleAmended, hla, h]
      · simp [Main.maybe_redownload, isStaleAmended, hla, h]

/-- C2: for every failure injection point of `download` (the
collections fetch and the raindrops fetch), the call either fully
replaces collections, raindrops and the download timestamp together,
or leaves the snapshot exactly as it was and surfaces the fetch's
error to the caller; no partial replacement occurs. -/
theorem download_atomicity :
    ∀ (s : Snapshot) (now : Timestamp) (fc : Except ApiError (List Collection))
      (fr : Except ApiError (List RaindropItem)),
      (∃ cs rs, fc = .ok cs ∧ fr = .ok rs ∧
        download s now fc fr =
          ({ collections := cs, raindrops := rs, last_downloaded := some now }, none)) ∨
      (∃ e, (fc = .error e ∨ ∃ cs, fc = .ok cs ∧ fr = .error e) ∧
        download s now fc fr = (s, some e)) := by
  intro s now fc fr
  cases fc with
  | error e => exact Or.inr ⟨e, Or.inl rfl, rfl⟩
  | ok cs =>
    cases fr with
    | error e => exact Or.inr ⟨e, Or.inr ⟨cs, rfl, rfl⟩, rfl⟩
    | ok rs => exact Or.inl ⟨cs, rs, rfl, rfl, rfl⟩

/-- C3 (counterexample): the claim says `ShowTagged` always starts a
fresh filter chain from the Unfiltered view of the collection.  In the
code, `Main.command_show_tagged` narrows the currently active view: on
a view of collection 5 that already carries a search filter, handling
`ShowTagged "go"` yields the search-and-tag chain, not the fresh
tag-only chain the claim requires. -/
theorem show_tagged_narrows_counterexample :
    Main.step [] { collection := 5, base := [], filters := [.search "x"] }
        (.ShowTagged "go") =
      { collection := 5, base := [], filters := [.search "x", .tag "go"] } ∧
    decide
      (Main.step [] { collection := 5, base := [], filters := [.search "x"] }
          (.ShowTagged "go") =
        (Raindrops.unfiltered
          { collection := 5, base := [], filters := [.search "x"] }).tagged "go")
      = false := by
  constructor
  · rfl
  · decide

/-- C3 (amended): in the main screen's step relation over the active
view, handling `ClearFilters` always transitions the active view back
to its Unfiltered base (same collection and base, empty filter chain,
items equal to the full base), and handling `ShowCollection` always
starts a fresh filter chain from the Unfiltered view of the newly
selected collection; handling `ShowTagged`, however, narrows whatever
view is currently active, appending the tag filter to the active
view's filter chain. -/
theorem step_filter_chain :
    ∀ (stored : List RaindropItem) (active : Raindrops) (c : Int) (t : String),
      Main.step stored active .ClearFilters = active.unfiltered ∧
      (Main.step stored active .ClearFilters).filters = [] ∧
      (Main.step stored active .ClearFilters).collection = active.collection ∧
      (Main.step stored active .ClearFilters).items = active.base ∧
      Main.step stored active (.ShowCollection c) = in_collection stored c ∧
      (Main.step stored active (.ShowCollection c)).filters = [] ∧
      Main.step stored active (.ShowTagged t) =
        { active with filters := active.filters ++ [.tag t] } ∧
      (Main.step stored active (.ShowTagged t)).items =
        active.items.filter fun r => matchesFilter r (.tag t) := by
  intro stored active c t
  refine ⟨rfl, rfl, rfl, ?_, rfl, rfl, rfl, ?_⟩
  · simp [Main.step, Raindrops.unfiltered, Raindrops.items]
  · simp [Main.step, Raindrops.tagged, Raindrops.items, List.filter_filter,
      List.all_append, Bool.and_comm]

/-- C4: every failure class of `Raindrop._call` — a network request
failure, a TLS certificate verification failure, and an HTTP error
status — raises the single typed `Raindrop.RequestError` carrying the
human-readable string of the underlying error, and no other exception
type signals any of these failures: every outcome of `_call` is either
the response text or a `RaindropRequestError`. -/
theorem call_single_error_taxonomy :
    (∀ msg, Raindrop.call (.requestError msg) = .error (.RaindropRequestError msg)) ∧
    (∀ msg, Raindrop.call (.sslCertVerificationError msg) =
      .error (.RaindropRequestError msg)) ∧
    (∀ text msg, Raindrop.call (.success ⟨text, some msg⟩) =
      .error (.RaindropRequestError msg)) ∧
    (∀ text, Raindrop.call (.success ⟨text, none⟩) = .ok text) ∧
    (∀ o, (∃ t, Raindrop.call o = .ok t) ∨
      ∃ m, Raindrop.call o = .error (.RaindropRequestError m)) := by
  refine ⟨fun _ => rfl, fun _ => rfl, fun _ _ => rfl, fun _ => rfl, fun o => ?_⟩
  rcases o with ⟨text, se⟩ | msg | msg
  · cases se with
    | none => exact Or.inl ⟨text, rfl⟩
    | some msg => exact Or.inr ⟨msg, rfl⟩
  · exact Or.inr ⟨msg, rfl⟩
  · exact Or.inr ⟨msg, rfl⟩

/-- C5: there are exactly five special collections, with the fixed
identities All = 0, Unsorted = -1, Trash = -99, Untagged = -998,
Broken = -999, and calling any member synthesizes (by a pure function,
hence deterministically and afresh on each call, never fetched or
persisted) a `Collection` whose identity is that fixed value, whose
title is the capitalized member name, with empty raw data and absent
created/last-update timestamps. -/
theorem special_collections_synthesis :
    (∀ s : SpecialCollection,
      s = .ALL ∨ s = .UNSORTED ∨ s = .TRASH ∨ s = .UNTAGGED ∨ s = .BROKEN) ∧
    SpecialCollection.ALL.value = 0 ∧
    SpecialCollection.UNSORTED.value = -1 ∧
    SpecialCollection.TRASH.value = -99 ∧
    SpecialCollection.UNTAGGED.value = -998 ∧
    SpecialCollection.BROKEN.value = -999 ∧
    SpecialCollection.ALL.call.title = Json.str "All" ∧
    SpecialCollection.UNSORTED.call.title = Json.str "Unsorted" ∧
    SpecialCollection.TRASH.call.title = Json.str "Trash" ∧
    SpecialCollection.UNTAGGED.call.title = Json.str "Untagged" ∧
    SpecialCollection.BROKEN.call.title = Json.str "Broken" ∧
    (∀ s : SpecialCollection,
      s.call.identity = Json.num s.value ∧
      s.call.title = Json.str (pyTitle s.name) ∧
      s.call.raw = [] ∧ s.call.created = none ∧ s.call.last_update = none) := by
  refine ⟨?_, rfl, rfl, rfl, rfl, rfl, rfl, rfl, rfl, rfl, rfl, ?_⟩
  · intro s
    cases s
    · exact Or.inl rfl
    · exact Or.inr (Or.inl rfl)
    · exact Or.inr (Or.inr (Or.inl rfl))
    · exact Or.inr (Or.inr (Or.inr (Or.inl rfl)))
    · exact Or.inr (Or.inr (Or.inr (Or.inr rfl)))
  · intro s
    cases s <;> exact ⟨rfl, rfl, rfl, rfl, rfl⟩

/-- C6 (counterexample): the claim says every special collection's
synthesized `Collection` carries an absent parent identity.  In the
code, `SpecialCollection.__call__` sets `parent=-1`: the All
collection's parent is the sentinel -1, not `None`. -/
theorem special_collection_parent_counterexample :
    SpecialCollection.ALL.call.parent = Json.num (-1) ∧
      jsonIsNull SpecialCollection.ALL.call.parent = false :=
  ⟨rfl, rfl⟩

/-- C6 (amended): for each of the five `SpecialCollection` members, the
`Collection` value it synthesizes carries the parent identity -1 — a
sentinel outside every real collection identity — rather than the
absent parent the data model requires of root collections. -/
theorem special_collection_parent_sentinel :
    ∀ s : SpecialCollection, s.call.parent = Json.num (-1) := by
  intro s
  cases s <;> rfl

/-- C7 (counterexample): the claim says `user()` has exactly two
outcomes — the user's details or the typed API error.  On the
well-formed response object `{"result": false, "user": {}}` the code
returns `None`: a third outcome that is neither. -/
theorem user_none_outcome_counterexample :
    Raindrop.user (.ok [("result", .bool false), ("user", .obj [])]) = .ok none :=
  rfl

/-- C7 (amended): for every response of the user endpoint, `user()` has
exactly four outcomes: the current user's details; `None` when the
response's result flag is falsey or its user value is null; the typed
`RequestError` propagated from the transport; or an untyped `KeyError`
when the parsed response object lacks the `user` or `result` key. -/
theorem user_outcome_taxonomy :
    (∀ e, Raindrop.user (.error e) = .error e) ∧
    (∀ resp : List (String × Json),
      (∃ u, Raindrop.user (.ok resp) = .ok (some u)) ∨
      Raindrop.user (.ok resp) = .ok none ∨
      (∃ k, Raindrop.user (.ok resp) = .error (.KeyError k))) := by
  refine ⟨fun e => rfl, fun resp => ?_⟩
  cases hres : Raindrop.result_of "user" resp with
  | error e =>
    obtain ⟨k, rfl⟩ := result_of_error_is_keyError _ _ _ hres
    exact Or.inr (Or.inr ⟨k, by simp [Raindrop.user, hres]⟩)
  | ok ru =>
    obtain ⟨r, u⟩ := ru
    by_cases hc : (jsonTruthy r && !jsonIsNull u) = true
    · exact Or.inl ⟨User.from_json u, by simp [Raindrop.user, hres, hc]⟩
    · exact Or.inr (Or.inl (by simp [Raindrop.user, hres, hc]))

/-- C8 (counterexample): the claim says `Collection.from_json` is total
on every JSON object containing the `"_id"` key.  On `{"_id": 1,
"parent": 5}` the code evaluates `data.get("parent", {}).get("$id")`
on the integer 5 and raises `AttributeError`. -/
theorem from_json_nondict_parent_counterexample :
    Collection.from_json [("_id", .num 1), ("parent", .num 5)] =
      .error (.AttributeError "no attribute get") :=
  rfl

/-- C8 (amended): `Collection.from_json` is total on every JSON object
that contains the `"_id"` key and whose `"parent"` value, when present,
is itself a JSON object: parsing succeeds, each missing optional field
takes its fixed default (empty color/title/view strings, count 0, sort
0, empty cover list, false expanded/public flags, absent timestamps),
and a record with no parent reference — no `"parent"` key, or a parent
object without `"$id"` — yields an absent parent identity. -/
theorem from_json_total_with_object_parent :
    ∀ data : List (String × Json),
      jsonHasKey data "_id" = true →
      parentWellFormed data = true →
      ∃ c, Collection.from_json data = .ok c ∧
        (jsonHasKey data "color" = false → c.color = .str "") ∧
        (jsonHasKey data "title" = false → c.title = .str "") ∧
        (jsonHasKey data "view" = false → c.view = .str "") ∧
        (jsonHasKey data "count" = false → c.count = .num 0) ∧
        (jsonHasKey data "sort" = false → c.sort = .num 0) ∧
        (jsonHasKey data "cover" = false → c.cover = .arr []) ∧
        (jsonHasKey data "expanded" = false → c.expanded = .bool false) ∧
        (jsonHasKey data "public" = false → c.public = .bool false) ∧
        (jsonHasKey data "created" = false → c.created = none) ∧
        (jsonHasKey data "lastUpdate" = false → c.last_update = none) ∧
        (jsonHasKey data "parent" = false → c.parent = .null) ∧
        (∀ pf, jsonLookup data "parent" = some (.obj pf) →
          jsonHasKey pf "$id" = false → c.parent = .null) := by
  intro data hid hpar
  cases hlook : jsonLookup data "_id" with
  | none => simp [jsonHasKey, hlook] at hid
  | some identity =>
    unfold parentWellFormed at hpar
    cases hp : jsonLookup data "parent" with
    | none =>
      have hgd : jsonGetD data "parent" (.obj []) = .obj [] := by
        unfold jsonGetD; rw [hp]; rfl
      have hfj : Collection.from_json data =
          .ok { raw := data
                identity := identity
                color := jsonGetD data "color" (.str "")
                count := jsonGetD data "count" (.num 0)
                cover := jsonGetD data "cover" (.arr [])
                created := get_time data "created"
                expanded := jsonGetD data "expanded" (.bool false)
                last_update := get_time data "lastUpdate"
                public := jsonGetD data "public" (.bool false)
                sort := jsonGetD data "sort" (.num 0)
                title := jsonGetD data "title" (.str "")
                view := jsonGetD data "view" (.str "")
                parent := .null } := by
        unfold Collection.from_json
        rw [hlook, hgd]
        rfl
      refine ⟨_, hfj, ?_, ?_, ?_, ?_, ?_, ?_, ?_, ?_, ?_, ?_, fun _ => rfl, ?_⟩
      · exact jsonGetD_of_hasKey_eq_false data "color" _
      · exact jsonGetD_of_hasKey_eq_false data "title" _
      · exact jsonGetD_of_hasKey_eq_false data "view" _
      · exact jsonGetD_of_hasKey_eq_false data "count" _
      · exact jsonGetD_of_hasKey_eq_false data "sort" _
      · exact jsonGetD_of_hasKey_eq_false data "cover" _
      · exact jsonGetD_of_hasKey_eq_false data "expanded" _
      · exact jsonGetD_of_hasKey_eq_false data "public" _
      · exact get_time_of_hasKey_eq_false data "created"
      · exact get_time_of_hasKey_eq_false data "lastUpdate"
      · exact fun pf hpf => absurd hpf (by simp)
    | some j =>
      rw [hp] at hpar
      cases j with
      | obj pf =>
        have hgd : jsonGetD data "parent" (.obj []) = .obj pf := by
          unfold jsonGetD; rw [hp]; rfl
        have hfj : Collection.from_json data =
            .ok { raw := data
                  identity := identity
                  color := jsonGetD data "color" (.str "")
                  count := jsonGetD data "count" (.num 0)
                  cover := jsonGetD data "cover" (.arr [])
                  created := get_time data "created"
                  expanded := jsonGetD data "expanded" (.bool false)
                  last_update := get_time data "lastUpdate"
                  public := jsonGetD data "public" (.bool false)
                  sort := jsonGetD data "sort" (.num 0)
                  title := jsonGetD data "title" (.str "")
                  view := jsonGetD data "view" (.str "")
                  parent := (jsonLookup pf "$id").getD .null } := by
          unfold Collection.from_json
          rw [hlook, hgd]
        refine ⟨_, hfj, ?_, ?_, ?_, ?_, ?_, ?_, ?_, ?_, ?_, ?_, ?_, ?_⟩
        · exact jsonGetD_of_hasKey_eq_false data "color" _
        · exact jsonGetD_of_hasKey_eq_false data "title" _
        · exact jsonGetD_of_hasKey_eq_false data "view" _
        · exact jsonGetD_of_hasKey_eq_false data "count" _
        · exact jsonGetD_of_hasKey_eq_false data "sort" _
        · exact jsonGetD_of_hasKey_eq_false data "cover" _
        · exact jsonGetD_of_hasKey_eq_false data "expanded" _
        · exact jsonGetD_of_hasKey_eq_false data "public" _
        · exact get_time_of_hasKey_eq_false data "created"
        · exact get_time_of_hasKey_eq_false data "lastUpdate"
        · intro hfalse
          unfold jsonHasKey at hfalse
          rw [hp] at hfalse
          simp at hfalse
        · intro pf2 hpf2 hnoid
          have h2 : pf = pf2 := by
            injection hpf2 with h1
            injection h1 with h2
          subst h2
          unfold jsonHasKey at hnoid
          cases hl : jsonLookup pf "$id" with
          | none => simp
          | some v => rw [hl] at hnoid; simp at hnoid
      | null => simp [jsonIsObj] at hpar
      | bool b => simp [jsonIsObj] at hpar
      | num n => simp [jsonIsObj] at hpar
      | str s => simp [jsonIsObj] at hpar
      | arr xs => simp [jsonIsObj] at hpar

/-- C8 (witness): the amended theorem applied to the concrete object
`{"_id": 1}`. -/
theorem from_json_total_witness :
    jsonHasKey [("_id", Json.num 1)] "_id" = true ∧
    parentWellFormed [("_id", Json.num 1)] = true ∧
    ∃ c, Collection.from_json [("_id", Json.num 1)] = .ok c := by
  refine ⟨by decide, by decide, ?_⟩
  obtain ⟨c, hc, -⟩ :=
    from_json_total_with_object_parent [("_id", Json.num 1)] (by decide) (by decide)
  exact ⟨c, hc⟩

/-- C9: for every pair of successful root-level and child-level
fetches, `collections("all")` returns exactly the concatenation of the
root-level collections followed by the child collections, in that
order; and any item of a response's item list that is not a JSON
object is silently dropped by the `isinstance` filter rather than
raising an error. -/
theorem collections_all_concatenation :
    (∀ rootResp childResp root children,
      Raindrop.collections_level rootResp = .ok root →
      Raindrop.collections_level childResp = .ok children →
      Raindrop.collections_all rootResp childResp = .ok (root ++ children)) ∧
    (∀ pre j post, jsonIsObj j = false →
      Raindrop.parse_collections (pre ++ j :: post) =
        Raindrop.parse_collections (pre ++ post)) := by
  constructor
  · intro rootResp childResp root children hr hc
    unfold Raindrop.collections_all
    rw [hr, hc]
  · intro pre j post hj
    induction pre with
    | nil =>
      cases j with
      | obj fields => simp [jsonIsObj] at hj
      | null => rfl
      | bool b => rfl
      | num n => rfl
      | str s => rfl
      | arr xs => rfl
    | cons p pre ih =>
      cases p <;>
        simp only [List.cons_append, Raindrop.parse_collections, List.append_eq, ih]

/-- C9 (witness): the theorem applied to concrete root and child
responses whose item lists are empty, and to a concrete non-object
item dropped from a singleton list. -/
theorem collections_all_concatenation_witness :
    Raindrop.collections_level [("result", Json.bool true), ("items", Json.arr [])] =
      .ok [] ∧
    Raindrop.collections_all [("result", Json.bool true), ("items", Json.arr [])]
        [("result", Json.bool true), ("items", Json.arr [])] = .ok ([] ++ []) ∧
    jsonIsObj (Json.num 3) = false ∧
    Raindrop.parse_collections ([] ++ Json.num 3 :: []) =
      Raindrop.parse_collections ([] ++ []) := by
  refine ⟨rfl, ?_, rfl, ?_⟩
  · exact collections_all_concatenation.1 _ _ [] [] rfl rfl
  · exact collections_all_concatenation.2 [] (Json.num 3) [] rfl

/-- C10: for every response object lacking the requested value key,
`_result_of` takes its fallback branch, which itself indexes the absent
key, and raises `KeyError` — an exception outside the client's typed
error hierarchy — so `user()` fails with an untyped error on the
well-formed but unexpected response `{"result": true}`. -/
theorem result_of_missing_key_raises_keyerror :
    (∀ value resp, jsonHasKey resp value = false →
      Raindrop.result_of value resp = .error (.KeyError value)) ∧
    (∀ k m, decide (PyExc.KeyError k = PyExc.RaindropRequestError m) = false) ∧
    Raindrop.user (.ok [("result", Json.bool true)]) = .error (.KeyError "user") := by
  refine ⟨?_, fun k m => by simp, rfl⟩
  intro value resp h
  simp [Raindrop.result_of, h]

/-- C10 (witness): the theorem applied to the concrete response object
`{"result": true}` and the value key `"user"`. -/
theorem result_of_missing_key_witness :
    jsonHasKey [("result", Json.bool true)] "user" = false ∧
    Raindrop.result_of "user" [("result", Json.bool true)] =
      .error (.KeyError "user") :=
  ⟨by decide, result_of_missing_key_raises_keyerror.1 "user" _ (by decide)⟩

end Braindrop
